import Mathlib

/-!
Verification of the interop-tests configuration matrix resolver and
rendezvous client (`interop-tests/src/arch.rs`).

The resolver (`build_swarm`) maps a requested
(transport, security protocol, muxer) triple to a constructed endpoint plus
its dial-address string; unsupported triples fail with an
"Unsupported combination" error.  Two environments exist, gated by
`cfg(target_arch = "wasm32")`: a `native` module and a `wasm` module, each
with its own allow-list of triples.

The rendezvous client (`RedisClient`) wraps the broker's `RPUSH`/`BLPOP`
list commands (native) or an HTTP proxy forwarding `blpop` (wasm).
-/

/-- Modelled from the spec and the variant usage in `arch.rs` (the enum
declarations live in the crate root, outside the provided sources):
the transport selection, `enum Transport { Tcp, QuicV1, WebRtcDirect, Ws, Webtransport }`. -/
inductive Transport
  | Tcp
  | QuicV1
  | WebRtcDirect
  | Ws
  | Webtransport
deriving DecidableEq

/-- Modelled from the spec and the variant usage in `arch.rs`:
`enum SecProtocol { Tls, Noise }`. -/
inductive SecProtocol
  | Tls
  | Noise
deriving DecidableEq

/-- Modelled from the spec and the variant usage in `arch.rs`:
`enum Muxer { Mplex, Yamux }`. -/
inductive Muxer
  | Mplex
  | Yamux
deriving DecidableEq

/-- Rust `Debug` rendering of a `Transport` value, as produced by the
`{t:?}` format specifier in the `bail!` message. -/
def Transport.debugFmt : Transport → String
  | .Tcp => "Tcp"
  | .QuicV1 => "QuicV1"
  | .WebRtcDirect => "WebRtcDirect"
  | .Ws => "Ws"
  | .Webtransport => "Webtransport"

/-- Rust `Debug` rendering of a `SecProtocol` value. -/
def SecProtocol.debugFmt : SecProtocol → String
  | .Tls => "Tls"
  | .Noise => "Noise"

/-- Rust `Debug` rendering of a `Muxer` value. -/
def Muxer.debugFmt : Muxer → String
  | .Mplex => "Mplex"
  | .Yamux => "Yamux"

/-- Rust `Debug` rendering of an `Option` value: `None` or `Some(x)`. -/
def optionDebugFmt {α : Type} (f : α → String) : Option α → String
  | none => "None"
  | some x => "Some(" ++ f x ++ ")"

/-- The error message produced by the fallthrough arm
`bail!("Unsupported combination: {t:?} {s:?} {m:?}")`, identical in the
`native` and `wasm` modules of `arch.rs`. -/
def unsupportedCombinationMsg (t : Transport) (s : Option SecProtocol) (m : Option Muxer) :
    String :=
  "Unsupported combination: " ++ t.debugFmt ++ " " ++
    optionDebugFmt SecProtocol.debugFmt s ++ " " ++ optionDebugFmt Muxer.debugFmt m

/-- The endpoint's cryptographic identity.  `SwarmBuilder::with_new_identity`
generates a fresh keypair; the embedding passes the generated key in as an
argument. -/
structure Keypair where
  seed : Nat
deriving DecidableEq

/-- Which security upgrade the builder is configured with
(`tls::Config::new` or `noise::Config::new`). -/
inductive SecurityUpgrade
  | tls
  | noise
deriving DecidableEq

/-- Which stream-muxer upgrade the builder is configured with
(`mplex::MplexConfig::default` / `::new` or `yamux::Config::default`). -/
inductive MuxerUpgrade
  | mplex
  | yamux
deriving DecidableEq

/-- The transport stack assembled by the `native::build_swarm` match arms. -/
inductive NativeStack
  | quic
  | tcp (security : SecurityUpgrade) (muxer : MuxerUpgrade)
  | websocket (security : SecurityUpgrade) (muxer : MuxerUpgrade)
  | webrtcTokio
deriving DecidableEq

/-- The transport stack assembled by the `wasm::build_swarm` match arms.
The websocket arm upgrades with `Version::V1Lazy`, authenticates with
`noise::Config::new` and multiplexes with the requested muxer. -/
inductive WasmStack
  | webtransportWebsys
  | websocketWebsys (security : SecurityUpgrade) (muxer : MuxerUpgrade)
  | webrtcWebsys
deriving DecidableEq

/-- A constructed endpoint: the assembled transport stack, the behaviour
object produced by `behaviour_constructor`, and the swarm configuration's
idle-connection timeout (`with_idle_connection_timeout(Duration::from_secs(5))`),
recorded in seconds. -/
structure Swarm (S : Type) (B : Type) where
  stack : S
  behaviour : B
  idleConnectionTimeoutSecs : Nat

namespace Native

/-- Embedding of `native::build_swarm` from `arch.rs`.  Each supported
triple assembles its stack with a 5-second idle-connection timeout and
formats its dial address from the bind `ip`; every other triple hits the
fallthrough `bail!` arm.  The fallible external constructors
(`tls::Config::new`, certificate generation, websocket upgrade) are
out-of-scope collaborators assumed correct, so construction is total. -/
def build_swarm (B : Type) (ip : String) (transport : Transport)
    (sec_protocol : Option SecProtocol) (muxer : Option Muxer)
    (key : Keypair) (behaviour_constructor : Keypair → B) :
    Except String (Swarm NativeStack B × String) :=
  match transport, sec_protocol, muxer with
  | .QuicV1, none, none =>
      .ok (⟨.quic, behaviour_constructor key, 5⟩, "/ip4/" ++ ip ++ "/udp/0/quic-v1")
  | .Tcp, some .Tls, some .Mplex =>
      .ok (⟨.tcp .tls .mplex, behaviour_constructor key, 5⟩, "/ip4/" ++ ip ++ "/tcp/0")
  | .Tcp, some .Tls, some .Yamux =>
      .ok (⟨.tcp .tls .yamux, behaviour_constructor key, 5⟩, "/ip4/" ++ ip ++ "/tcp/0")
  | .Tcp, some .Noise, some .Mplex =>
      .ok (⟨.tcp .noise .mplex, behaviour_constructor key, 5⟩, "/ip4/" ++ ip ++ "/tcp/0")
  | .Tcp, some .Noise, some .Yamux =>
      .ok (⟨.tcp .noise .yamux, behaviour_constructor key, 5⟩, "/ip4/" ++ ip ++ "/tcp/0")
  | .Ws, some .Tls, some .Mplex =>
      .ok (⟨.websocket .tls .mplex, behaviour_constructor key, 5⟩, "/ip4/" ++ ip ++ "/tcp/0/ws")
  | .Ws, some .Tls, some .Yamux =>
      .ok (⟨.websocket .tls .yamux, behaviour_constructor key, 5⟩, "/ip4/" ++ ip ++ "/tcp/0/ws")
  | .Ws, some .Noise, some .Mplex =>
      .ok (⟨.websocket .noise .mplex, behaviour_constructor key, 5⟩, "/ip4/" ++ ip ++ "/tcp/0/ws")
  | .Ws, some .Noise, some .Yamux =>
      .ok (⟨.websocket .noise .yamux, behaviour_constructor key, 5⟩, "/ip4/" ++ ip ++ "/tcp/0/ws")
  | .WebRtcDirect, none, none =>
      .ok (⟨.webrtcTokio, behaviour_constructor key, 5⟩, "/ip4/" ++ ip ++ "/udp/0/webrtc-direct")
  | t, s, m => .error (unsupportedCombinationMsg t s m)

end Native

namespace Wasm

/-- Embedding of `wasm::build_swarm` from `arch.rs`.  Only the
webtransport, websocket-over-noise and webrtc-direct triples are supported;
every other triple hits the fallthrough `bail!` arm. -/
def build_swarm (B : Type) (ip : String) (transport : Transport)
    (sec_protocol : Option SecProtocol) (muxer : Option Muxer)
    (key : Keypair) (behaviour_constructor : Keypair → B) :
    Except String (Swarm WasmStack B × String) :=
  match transport, sec_protocol, muxer with
  | .Webtransport, none, none =>
      .ok (⟨.webtransportWebsys, behaviour_constructor key, 5⟩,
        "/ip4/" ++ ip ++ "/udp/0/quic/webtransport")
  | .Ws, some .Noise, some .Mplex =>
      .ok (⟨.websocketWebsys .noise .mplex, behaviour_constructor key, 5⟩,
        "/ip4/" ++ ip ++ "/tcp/0/wss")
  | .Ws, some .Noise, some .Yamux =>
      .ok (⟨.websocketWebsys .noise .yamux, behaviour_constructor key, 5⟩,
        "/ip4/" ++ ip ++ "/tcp/0/wss")
  | .WebRtcDirect, none, none =>
      .ok (⟨.webrtcWebsys, behaviour_constructor key, 5⟩,
        "/ip4/" ++ ip ++ "/udp/0/webrtc-direct")
  | t, s, m => .error (unsupportedCombinationMsg t s m)

end Wasm

/-- A dial-address template with a single `\x7bip\x7d` placeholder between a
fixed head and a fixed tail, e.g. head `"/ip4/"`, tail `"/udp/0/quic-v1"`. -/
structure DialTemplate where
  pre : String
  post : String
deriving DecidableEq

/-- Render the template as the spec writes it, with the literal placeholder. -/
def DialTemplate.render (t : DialTemplate) : String :=
  t.pre ++ "{ip}" ++ t.post

/-- Substitute a concrete bind IP for the placeholder. -/
def DialTemplate.subst (t : DialTemplate) (ip : String) : String :=
  t.pre ++ ip ++ t.post

/-- The native environment's allow-list, paired with the fixed dial-address
template of each supported triple, transcribed from the ten success arms of
`native::build_swarm`. -/
def nativeMatrix : List ((Transport × Option SecProtocol × Option Muxer) × DialTemplate) :=
  [((.QuicV1, none, none), ⟨"/ip4/", "/udp/0/quic-v1"⟩),
   ((.Tcp, some .Tls, some .Mplex), ⟨"/ip4/", "/tcp/0"⟩),
   ((.Tcp, some .Tls, some .Yamux), ⟨"/ip4/", "/tcp/0"⟩),
   ((.Tcp, some .Noise, some .Mplex), ⟨"/ip4/", "/tcp/0"⟩),
   ((.Tcp, some .Noise, some .Yamux), ⟨"/ip4/", "/tcp/0"⟩),
   ((.Ws, some .Tls, some .Mplex), ⟨"/ip4/", "/tcp/0/ws"⟩),
   ((.Ws, some .Tls, some .Yamux), ⟨"/ip4/", "/tcp/0/ws"⟩),
   ((.Ws, some .Noise, some .Mplex), ⟨"/ip4/", "/tcp/0/ws"⟩),
   ((.Ws, some .Noise, some .Yamux), ⟨"/ip4/", "/tcp/0/ws"⟩),
   ((.WebRtcDirect, none, none), ⟨"/ip4/", "/udp/0/webrtc-direct"⟩)]

/-- The wasm environment's allow-list with templates, transcribed from the
four success arms of `wasm::build_swarm`. -/
def wasmMatrix : List ((Transport × Option SecProtocol × Option Muxer) × DialTemplate) :=
  [((.Webtransport, none, none), ⟨"/ip4/", "/udp/0/quic/webtransport"⟩),
   ((.Ws, some .Noise, some .Mplex), ⟨"/ip4/", "/tcp/0/wss"⟩),
   ((.Ws, some .Noise, some .Yamux), ⟨"/ip4/", "/tcp/0/wss"⟩),
   ((.WebRtcDirect, none, none), ⟨"/ip4/", "/udp/0/webrtc-direct"⟩)]

/-- The native allow-list of triples. -/
def nativeAllowList : List (Transport × Option SecProtocol × Option Muxer) :=
  nativeMatrix.map (·.1)

/-- The wasm allow-list of triples. -/
def wasmAllowList : List (Transport × Option SecProtocol × Option Muxer) :=
  wasmMatrix.map (·.1)

/-- Modelled from the spec: the shared broker's list state, one
first-in-first-out queue of string values per key (`RPUSH`/`BLPOP` native
list commands of the broker; the broker itself is outside the provided
sources). -/
def BrokerState : Type := List (String × List String)

/-- The queue currently stored under `k` (empty when the key is absent). -/
def BrokerState.get : BrokerState → String → List String
  | [], _ => []
  | (k', l) :: rest, k => if k' == k then l else BrokerState.get rest k

/-- Replace the queue stored under `k` (appending a fresh entry when the
key is absent). -/
def BrokerState.set : BrokerState → String → List String → BrokerState
  | [], k, l => [(k, l)]
  | (k', l') :: rest, k, l =>
      if k' == k then (k, l) :: rest else (k', l') :: BrokerState.set rest k l

/-- Modelled from the spec: the broker's `RPUSH key value` command appends
`value` at the tail of the queue under `key`. -/
def brokerRpush (st : BrokerState) (key : String) (value : String) : BrokerState :=
  st.set key (st.get key ++ [value])

/-- Modelled from the spec: the broker's `BLPOP key timeout` command.
If a value is pending under `key` it is popped and the reply is the
two-element array `[key, value]`, with no waiting (elapsed time 0).
Otherwise the call waits out the timeout and replies with the empty array.
Returns (new broker state, reply array, elapsed seconds). -/
def brokerBlpop (st : BrokerState) (key : String) (timeout : Nat) :
    BrokerState × List String × Nat :=
  match st.get key with
  | [] => (st, [], timeout)
  | v :: rest => (st.set key rest, [key, v], 0)

namespace Native

/-- Embedding of `native::RedisClient::blpop`: forwards `BLPOP key timeout`
to the broker and wraps the broker's reply array in `Ok` unchanged — an
empty reply (timeout) is still a success value.  The connection is an
out-of-scope collaborator assumed reachable.  Returns
(new broker state, client result, elapsed seconds). -/
def redisBlpop (st : BrokerState) (key : String) (timeout : Nat) :
    BrokerState × Except String (List String) × Nat :=
  let r := brokerBlpop st key timeout
  (r.1, .ok r.2.1, r.2.2)

/-- Embedding of `native::RedisClient::rpush`: forwards `RPUSH key value`
to the broker and returns `Ok(())`. -/
def redisRpush (st : BrokerState) (key : String) (value : String) :
    BrokerState × Except String Unit :=
  (brokerRpush st key value, .ok ())

end Native

namespace Wasm

/-- Embedding of `wasm::RedisClient::blpop`: POSTs `{key, timeout}` to the
HTTP proxy's `/blpop` endpoint, which forwards the same `BLPOP` to the
broker and relays the broker's reply array unchanged. -/
def redisBlpop (st : BrokerState) (key : String) (timeout : Nat) :
    BrokerState × Except String (List String) × Nat :=
  let r := brokerBlpop st key timeout
  (r.1, .ok r.2.1, r.2.2)

/-- Embedding of `wasm::RedisClient::rpush`: unconditionally
`bail!("unimplemented")`, touching nothing. -/
def redisRpush (st : BrokerState) (_key : String) (_value : String) :
    BrokerState × Except String Unit :=
  (st, .error "unimplemented")

end Wasm

theorem BrokerState.get_set_self (st : BrokerState) (k : String) (l : List String) :
    (st.set k l).get k = l := by
  induction st with
  | nil => simp [BrokerState.set, BrokerState.get]
  | cons p rest ih =>
      obtain ⟨k', l'⟩ := p
      by_cases h : k' == k
      · simp [BrokerState.set, BrokerState.get, h]
      · simp only [BrokerState.set, h, if_false]
        simp [BrokerState.get, h, ih]

/-- Whether a fallible computation succeeded. -/
def exceptOk {ε α : Type} : Except ε α → Bool
  | .ok _ => true
  | .error _ => false

/-- C1: for every (transport, security, muxer) triple in the active
environment's allow-list, `build_swarm` returns success and the dial
address it returns equals that triple's fixed multiaddr template with the
bind IP substituted for the placeholder; in particular the native
(QuicV1, None, None) entry carries the template `/ip4/\x7bip\x7d/udp/0/quic-v1`
and every supported TCP triple carries the template `/ip4/\x7bip\x7d/tcp/0`. -/
theorem c1_allowlist_success_dial_template :
    ∀ (B : Type) (bc : Keypair → B) (ip : String) (key : Keypair)
      (e : (Transport × Option SecProtocol × Option Muxer) × DialTemplate),
      (e ∈ nativeMatrix →
        ∃ sw, Native.build_swarm B ip e.1.1 e.1.2.1 e.1.2.2 key bc = .ok (sw, e.2.subst ip)) ∧
      (e ∈ wasmMatrix →
        ∃ sw, Wasm.build_swarm B ip e.1.1 e.1.2.1 e.1.2.2 key bc = .ok (sw, e.2.subst ip)) ∧
      ((Transport.QuicV1, none, none), (⟨"/ip4/", "/udp/0/quic-v1"⟩ : DialTemplate)) ∈
        nativeMatrix ∧
      DialTemplate.render ⟨"/ip4/", "/udp/0/quic-v1"⟩ = "/ip4/{ip}/udp/0/quic-v1" ∧
      (∀ e2 ∈ nativeMatrix, e2.1.1 = Transport.Tcp → e2.2.render = "/ip4/{ip}/tcp/0") := by
  intro B bc ip key e
  refine ⟨?_, ?_, by decide, rfl, by decide⟩
  · intro h
    fin_cases h <;> exact ⟨_, rfl⟩
  · intro h
    fin_cases h <;> exact ⟨_, rfl⟩

theorem c1_witness :
    ∃ sw, Native.build_swarm Unit "10.0.0.5" Transport.QuicV1 none none ⟨0⟩ (fun _ => ()) =
      .ok (sw, DialTemplate.subst ⟨"/ip4/", "/udp/0/quic-v1"⟩ "10.0.0.5") :=
  (c1_allowlist_success_dial_template Unit (fun _ => ()) "10.0.0.5" ⟨0⟩
    ((Transport.QuicV1, none, none), ⟨"/ip4/", "/udp/0/quic-v1"⟩)).1 (by decide)

/-- C2: every triple absent from the active environment's allow-list fails
with the `Unsupported combination` error naming the requested transport,
security and muxer values, no endpoint is returned, and this is the only
error path of `build_swarm` — every invocation either succeeds or returns
exactly that error. -/
theorem c2_unsupported_combination_only_error :
    ∀ (B : Type) (bc : Keypair → B) (ip : String) (key : Keypair)
      (t : Transport) (s : Option SecProtocol) (m : Option Muxer),
      ((t, s, m) ∉ nativeAllowList →
        Native.build_swarm B ip t s m key bc = .error (unsupportedCombinationMsg t s m)) ∧
      ((t, s, m) ∉ wasmAllowList →
        Wasm.build_swarm B ip t s m key bc = .error (unsupportedCombinationMsg t s m)) ∧
      ((∃ r, Native.build_swarm B ip t s m key bc = .ok r) ∨
        Native.build_swarm B ip t s m key bc = .error (unsupportedCombinationMsg t s m)) ∧
      ((∃ r, Wasm.build_swarm B ip t s m key bc = .ok r) ∨
        Wasm.build_swarm B ip t s m key bc = .error (unsupportedCombinationMsg t s m)) := by
  intro B bc ip key t s m
  cases t <;> rcases s with _ | (_ | _) <;> rcases m with _ | (_ | _) <;>
    refine ⟨?_, ?_, ?_, ?_⟩ <;>
    first
      | (intro h; exact absurd (by decide) h)
      | (intro h; rfl)
      | exact Or.inl ⟨_, rfl⟩
      | exact Or.inr rfl

theorem c2_witness :
    Native.build_swarm Unit "10.0.0.5" Transport.Tcp (some SecProtocol.Tls) none ⟨0⟩
        (fun _ => ()) = .error "Unsupported combination: Tcp Some(Tls) None" ∧
    Wasm.build_swarm Unit "10.0.0.5" Transport.Tcp (some SecProtocol.Tls) none ⟨0⟩
        (fun _ => ()) = .error "Unsupported combination: Tcp Some(Tls) None" :=
  ⟨(c2_unsupported_combination_only_error Unit (fun _ => ()) "10.0.0.5" ⟨0⟩ Transport.Tcp
      (some SecProtocol.Tls) none).1 (by decide),
   (c2_unsupported_combination_only_error Unit (fun _ => ()) "10.0.0.5" ⟨0⟩ Transport.Tcp
      (some SecProtocol.Tls) none).2.1 (by decide)⟩

/-- C3 counterexample: the claim fails in the wasm environment, where the
WebSocket transport is available (the Noise/Yamux triple succeeds) yet the
TLS/Mplex triple of the advertised cross-product is rejected. -/
theorem c3_counterexample :
    (∃ sw, Wasm.build_swarm Unit "10.0.0.5" Transport.Ws (some SecProtocol.Noise)
        (some Muxer.Yamux) ⟨0⟩ (fun _ => ()) = .ok sw) ∧
    Wasm.build_swarm Unit "10.0.0.5" Transport.Ws (some SecProtocol.Tls)
        (some Muxer.Mplex) ⟨0⟩ (fun _ => ()) =
      .error "Unsupported combination: Ws Some(Tls) Some(Mplex)" :=
  ⟨⟨_, rfl⟩, rfl⟩

/-- C3 amended: in the native environment, TCP and WebSocket accept exactly
the triples with one explicit security protocol and one explicit muxer —
the full cross-product of TLS/Noise with Mplex/Yamux; in the wasm
environment TCP is unavailable and WebSocket accepts exactly the Noise
triples with one explicit muxer. -/
theorem c3_amended_bytestream_matrix :
    ∀ (B : Type) (bc : Keypair → B) (ip : String) (key : Keypair)
      (s : Option SecProtocol) (m : Option Muxer),
      exceptOk (Native.build_swarm B ip Transport.Tcp s m key bc) = (s.isSome && m.isSome) ∧
      exceptOk (Native.build_swarm B ip Transport.Ws s m key bc) = (s.isSome && m.isSome) ∧
      exceptOk (Wasm.build_swarm B ip Transport.Ws s m key bc) =
        (decide (s = some SecProtocol.Noise) && m.isSome) ∧
      exceptOk (Wasm.build_swarm B ip Transport.Tcp s m key bc) = false := by
  intro B bc ip key s m
  rcases s with _ | (_ | _) <;> rcases m with _ | (_ | _) <;>
    exact ⟨rfl, rfl, rfl, rfl⟩

/-- The transports whose security and multiplexing are integrated into the
transport itself: QUIC-v1, WebRTC-direct and WebTransport. -/
def integratedTransport (t : Transport) : Bool :=
  match t with
  | .QuicV1 => true
  | .WebRtcDirect => true
  | .Webtransport => true
  | _ => false

/-- C4: for the integrated-security transports, `build_swarm` succeeds only
with neither an explicit security protocol nor an explicit muxer; any
request naming one fails with the `Unsupported combination` error in both
environments. -/
theorem c4_integrated_none_none_only :
    ∀ (B : Type) (bc : Keypair → B) (ip : String) (key : Keypair)
      (t : Transport) (s : Option SecProtocol) (m : Option Muxer),
      integratedTransport t = true →
      (((s.isSome || m.isSome) = true →
          Native.build_swarm B ip t s m key bc = .error (unsupportedCombinationMsg t s m) ∧
          Wasm.build_swarm B ip t s m key bc = .error (unsupportedCombinationMsg t s m)) ∧
        ((∃ r, Native.build_swarm B ip t s m key bc = .ok r) → s = none ∧ m = none) ∧
        ((∃ r, Wasm.build_swarm B ip t s m key bc = .ok r) → s = none ∧ m = none)) := by
  intro B bc ip key t s m ht
  cases t <;> rcases s with _ | (_ | _) <;> rcases m with _ | (_ | _) <;>
    first
      | exact absurd ht (by decide)
      | exact ⟨fun h => absurd h (by decide), fun _ => ⟨rfl, rfl⟩, fun _ => ⟨rfl, rfl⟩⟩
      | exact ⟨fun _ => ⟨rfl, rfl⟩, fun h => Except.noConfusion h.choose_spec,
          fun h => Except.noConfusion h.choose_spec⟩

theorem c4_witness :
    Native.build_swarm Unit "10.0.0.5" Transport.QuicV1 (some SecProtocol.Noise) none ⟨0⟩
        (fun _ => ()) = .error "Unsupported combination: QuicV1 Some(Noise) None" ∧
    Wasm.build_swarm Unit "10.0.0.5" Transport.QuicV1 (some SecProtocol.Noise) none ⟨0⟩
        (fun _ => ()) = .error "Unsupported combination: QuicV1 Some(Noise) None" :=
  (c4_integrated_none_none_only Unit (fun _ => ()) "10.0.0.5" ⟨0⟩ Transport.QuicV1
    (some SecProtocol.Noise) none (by decide)).1 (by decide)

/-- C5 counterexample: `blpop` on a key with no pending value returns, after
the timeout elapses, a successful empty reply array — a success value, not
a distinct timeout error — in both the direct and the HTTP-proxied
backend. -/
theorem c5_counterexample :
    Native.redisBlpop [] "listener_addr" 5 = ([], .ok [], 5) ∧
    Wasm.redisBlpop [] "listener_addr" 5 = ([], .ok [], 5) :=
  ⟨rfl, rfl⟩

/-- C5 amended: when `blpop` is called on a key with no pending value, the
timeout elapses and the call returns success with an empty reply array;
callers must treat the empty reply as the timeout signal — no distinct
timeout error is produced. -/
theorem c5_amended_timeout_empty_reply :
    ∀ (st : BrokerState) (k : String) (t : Nat),
      st.get k = [] →
      Native.redisBlpop st k t = (st, .ok [], t) ∧
      Wasm.redisBlpop st k t = (st, .ok [], t) := by
  intro st k t h
  constructor <;> simp [Native.redisBlpop, Wasm.redisBlpop, brokerBlpop, h]

theorem c5_amended_witness :
    Native.redisBlpop [] "listener_addr" 30 = ([], .ok [], 30) ∧
    Wasm.redisBlpop [] "listener_addr" 30 = ([], .ok [], 30) :=
  c5_amended_timeout_empty_reply [] "listener_addr" 30 rfl

/-- C6: a successful `rpush k v` followed immediately by `blpop k t` with a
positive timeout returns the reply array `[k, v]` with no waiting (elapsed
time 0), for any non-empty value `v`, starting from a state with nothing
pending under `k`. -/
theorem c6_push_then_pop_returns_value :
    ∀ (st : BrokerState) (k v : String) (t : Nat),
      0 < t → v ≠ "" → st.get k = [] →
      Native.redisRpush st k v = (brokerRpush st k v, .ok ()) ∧
      (Native.redisBlpop (brokerRpush st k v) k t).2 = (.ok [k, v], 0) := by
  intro st k v t ht hv h
  have hg : (brokerRpush st k v).get k = [v] := by
    simp [brokerRpush, BrokerState.get_set_self, h]
  exact ⟨rfl, by simp [Native.redisBlpop, brokerBlpop, hg]⟩

theorem c6_witness :
    Native.redisRpush [] "listener_addr" "/ip4/10.0.0.5/tcp/0" =
      (brokerRpush [] "listener_addr" "/ip4/10.0.0.5/tcp/0", .ok ()) ∧
    (Native.redisBlpop (brokerRpush [] "listener_addr" "/ip4/10.0.0.5/tcp/0")
        "listener_addr" 30).2 = (.ok ["listener_addr", "/ip4/10.0.0.5/tcp/0"], 0) :=
  c6_push_then_pop_returns_value [] "listener_addr" "/ip4/10.0.0.5/tcp/0" 30
    (by decide) (by decide) rfl

/-- C7: pushing `v1` then `v2` under the same key and popping twice yields
`v1` first and then `v2` — values pushed under one key are delivered in
first-in-first-out order. -/
theorem c7_fifo_order :
    ∀ (st : BrokerState) (k v1 v2 : String) (t : Nat),
      st.get k = [] →
      (Native.redisBlpop (brokerRpush (brokerRpush st k v1) k v2) k t).2 =
        (.ok [k, v1], 0) ∧
      (Native.redisBlpop
          (Native.redisBlpop (brokerRpush (brokerRpush st k v1) k v2) k t).1 k t).2 =
        (.ok [k, v2], 0) := by
  intro st k v1 v2 t h
  have h1 : (brokerRpush st k v1).get k = [v1] := by
    simp [brokerRpush, BrokerState.get_set_self, h]
  have h2 : (brokerRpush (brokerRpush st k v1) k v2).get k = [v1, v2] := by
    simp [brokerRpush, BrokerState.get_set_self, h]
  have h3 : ((brokerRpush (brokerRpush st k v1) k v2).set k [v2]).get k = [v2] :=
    BrokerState.get_set_self _ _ _
  refine ⟨by simp [Native.redisBlpop, brokerBlpop, h2], ?_⟩
  simp [Native.redisBlpop, brokerBlpop, h2, h3]

theorem c7_witness :
    (Native.redisBlpop (brokerRpush (brokerRpush [] "k" "v1") "k" "v2") "k" 5).2 =
      (.ok ["k", "v1"], 0) ∧
    (Native.redisBlpop
        (Native.redisBlpop (brokerRpush (brokerRpush [] "k" "v1") "k" "v2") "k" 5).1 "k" 5).2 =
      (.ok ["k", "v2"], 0) :=
  c7_fifo_order [] "k" "v1" "v2" 5 rfl

/-- C8: the HTTP-proxied delegate backend's `rpush` unconditionally fails
with the `unimplemented` error, for every broker state, key and value, and
leaves the broker state untouched. -/
theorem c8_wasm_rpush_unimplemented :
    ∀ (st : BrokerState) (k v : String),
      Wasm.redisRpush st k v = (st, .error "unimplemented") :=
  fun _ _ _ => rfl

/-- C9: every endpoint `build_swarm` successfully constructs, for every
triple in either environment, carries an idle-connection timeout of exactly
5 seconds. -/
theorem c9_idle_timeout_five_seconds :
    ∀ (B : Type) (bc : Keypair → B) (ip : String) (key : Keypair)
      (t : Transport) (s : Option SecProtocol) (m : Option Muxer)
      (swN : Swarm NativeStack B) (addrN : String)
      (swW : Swarm WasmStack B) (addrW : String),
      (Native.build_swarm B ip t s m key bc = .ok (swN, addrN) →
        swN.idleConnectionTimeoutSecs = 5) ∧
      (Wasm.build_swarm B ip t s m key bc = .ok (swW, addrW) →
        swW.idleConnectionTimeoutSecs = 5) := by
  intro B bc ip key t s m swN addrN swW addrW
  cases t <;> rcases s with _ | (_ | _) <;> rcases m with _ | (_ | _) <;>
    constructor <;>
    intro h <;>
    first
      | exact Except.noConfusion h
      | (injection h with h1; injection h1 with h2 h3; subst h2; rfl)

theorem c9_witness :
    (⟨NativeStack.quic, (), 5⟩ : Swarm NativeStack Unit).idleConnectionTimeoutSecs = 5 ∧
    (⟨WasmStack.webtransportWebsys, (), 5⟩ :
      Swarm WasmStack Unit).idleConnectionTimeoutSecs = 5 :=
  ⟨(c9_idle_timeout_five_seconds Unit (fun _ => ()) "10.0.0.5" ⟨0⟩ Transport.QuicV1 none none
      ⟨NativeStack.quic, (), 5⟩ "/ip4/10.0.0.5/udp/0/quic-v1"
      ⟨WasmStack.webtransportWebsys, (), 5⟩ "x").1 rfl,
   (c9_idle_timeout_five_seconds Unit (fun _ => ()) "10.0.0.5" ⟨0⟩ Transport.Webtransport none
      none ⟨NativeStack.quic, (), 5⟩ "x"
      ⟨WasmStack.webtransportWebsys, (), 5⟩ "/ip4/10.0.0.5/udp/0/quic/webtransport").2 rfl⟩

/-- C10: in the wasm environment every supported WebSocket triple (Noise
with either muxer) yields the secure-websocket dial address
`/ip4/\x7bip\x7d/tcp/0/wss`, while the native environment yields
`/ip4/\x7bip\x7d/tcp/0/ws` for the same logical triples; the two templates
differ. -/
theorem c10_wasm_wss_vs_native_ws :
    ∀ (B : Type) (bc : Keypair → B) (ip : String) (key : Keypair) (m : Muxer),
      (∃ sw, Wasm.build_swarm B ip Transport.Ws (some SecProtocol.Noise) (some m) key bc =
        .ok (sw, DialTemplate.subst ⟨"/ip4/", "/tcp/0/wss"⟩ ip)) ∧
      (∃ sw, Native.build_swarm B ip Transport.Ws (some SecProtocol.Noise) (some m) key bc =
        .ok (sw, DialTemplate.subst ⟨"/ip4/", "/tcp/0/ws"⟩ ip)) ∧
      DialTemplate.render ⟨"/ip4/", "/tcp/0/wss"⟩ = "/ip4/{ip}/tcp/0/wss" ∧
      DialTemplate.render ⟨"/ip4/", "/tcp/0/ws"⟩ = "/ip4/{ip}/tcp/0/ws" ∧
      decide ((⟨"/ip4/", "/tcp/0/wss"⟩ : DialTemplate) = ⟨"/ip4/", "/tcp/0/ws"⟩) = false := by
  intro B bc ip key m
  cases m <;> exact ⟨⟨_, rfl⟩, ⟨_, rfl⟩, rfl, rfl, by decide⟩
